import Mathlib

set_option autoImplicit false

namespace EasySql

/-! Shallow embedding of the easysql core (src-tauri/src/commands.rs,
database.rs, ssh.rs).  External driver and engine behaviour (sqlx /
tiberius fetches, TCP dials, SSH handshakes) is supplied through explicit
oracle parameters; everything the Rust code computes itself is embedded as
executable Lean definitions. -/

/-- A 64-bit IEEE float, carried as its raw bit pattern.  The code never
computes with float values, it only moves them from the driver into the
JSON value model, so the bit pattern is all we need. -/
structure F64 where
  bits : Nat
deriving DecidableEq, Repr

/-- The dynamically typed scalar cell model (`serde_json::Value` as produced
by the row decoders: null / string / 64-bit int / 64-bit float / bool). -/
inductive JValue where
  | null
  | str (s : String)
  | int (n : Int)
  | float (f : F64)
  | bool (b : Bool)
deriving DecidableEq, Repr

/-- `QueryResult` from database.rs: ordered column names, rows of dynamic
cells, optional error message, optional affected-row count. -/
structure QueryResult where
  columns : List String
  rows : List (List JValue)
  error : Option String
  affected_rows : Option Int
deriving DecidableEq, Repr

/-- One cell of a row as the sqlx driver presents it: whether `try_get_raw`
succeeds, whether the raw value is SQL NULL, and the outcome of each typed
`try_get` the code may attempt (`none` = that decode fails). -/
structure SqlxCell where
  raw_ok : Bool
  is_null : Bool
  get_string : Option String
  get_i64 : Option Int
  get_f64 : Option F64
  get_bool : Option Bool
deriving DecidableEq, Repr

/-- A fetched sqlx row: the column names reported by its metadata and its
cells in order. -/
structure SqlxRow where
  colNames : List String
  cells : List SqlxCell
deriving DecidableEq, Repr

/-- Cell decode of `query_mysql` (commands.rs:305-319): raw error → null;
null → null; otherwise string, i64, f64, bool in order; all fail → null. -/
def decodeMySqlCell (c : SqlxCell) : JValue :=
  if c.raw_ok then
    if c.is_null then JValue.null
    else
      match c.get_string with
      | some s => JValue.str s
      | none =>
        match c.get_i64 with
        | some n => JValue.int n
        | none =>
          match c.get_f64 with
          | some f => JValue.float f
          | none =>
            match c.get_bool with
            | some b => JValue.bool b
            | none => JValue.null
  else JValue.null

/-- Cell decode of `query_postgres` (commands.rs:390-404), textually the
same chain as the MySQL one. -/
def decodePgCell (c : SqlxCell) : JValue :=
  if c.raw_ok then
    if c.is_null then JValue.null
    else
      match c.get_string with
      | some s => JValue.str s
      | none =>
        match c.get_i64 with
        | some n => JValue.int n
        | none =>
          match c.get_f64 with
          | some f => JValue.float f
          | none =>
            match c.get_bool with
            | some b => JValue.bool b
            | none => JValue.null
  else JValue.null

/-- Cell decode of `query_sqlite` (commands.rs:474-487): like the MySQL
chain but the code stops after the f64 attempt — no boolean `try_get`. -/
def decodeSqliteCell (c : SqlxCell) : JValue :=
  if c.raw_ok then
    if c.is_null then JValue.null
    else
      match c.get_string with
      | some s => JValue.str s
      | none =>
        match c.get_i64 with
        | some n => JValue.int n
        | none =>
          match c.get_f64 with
          | some f => JValue.float f
          | none => JValue.null
  else JValue.null

/-- One cell of a tiberius (SQL Server) row.  `try_get` there returns
`Result<Option<T>>`; the outer `Option` is `none` when the typed decode
errs, the inner one is `none` when the value is SQL NULL. -/
structure TdsCell where
  get_str : Option (Option String)
  get_i32 : Option (Option Int)
  get_i64 : Option (Option Int)
  get_f64 : Option (Option F64)
deriving DecidableEq, Repr

/-- A tiberius row: reported column names and cells. -/
structure TdsRow where
  colNames : List String
  cells : List TdsCell
deriving DecidableEq, Repr

/-- Cell decode of `query_sqlserver` (commands.rs:561-571): `&str`, then
i32, then i64, then f64, each via `.ok().flatten()`; everything failing
(including SQL NULL falling through every arm) yields null. -/
def decodeTdsCell (c : TdsCell) : JValue :=
  match c.get_str.join with
  | some s => JValue.str s
  | none =>
    match c.get_i32.join with
    | some n => JValue.int n
    | none =>
      match c.get_i64.join with
      | some n => JValue.int n
      | none =>
        match c.get_f64.join with
        | some f => JValue.float f
        | none => JValue.null

/-- Decode of the spec sentence, for comparison with the engine decoders:
"trying, in fixed priority order, null → string → 64-bit integer → 64-bit
float → boolean, accepting the first successful decode", undecodable → null. -/
def specOrderDecode (c : SqlxCell) : JValue :=
  if c.raw_ok then
    if c.is_null then JValue.null
    else
      match c.get_string with
      | some s => JValue.str s
      | none =>
        match c.get_i64 with
        | some n => JValue.int n
        | none =>
          match c.get_f64 with
          | some f => JValue.float f
          | none =>
            match c.get_bool with
            | some b => JValue.bool b
            | none => JValue.null
  else JValue.null

/-- Rust `str::trim`: strip whitespace from both ends. -/
def rustTrim (s : String) : String :=
  ⟨((s.data.dropWhile Char.isWhitespace).reverse.dropWhile Char.isWhitespace).reverse⟩

/-- Rust `str::to_uppercase`, restricted to the ASCII range the SQL keyword
checks care about. -/
def rustToUpper (s : String) : String :=
  ⟨s.data.map Char.toUpper⟩

/-- Rust `str::starts_with` on strings. -/
def rustStartsWith (s p : String) : Bool :=
  p.data.isPrefixOf s.data

/-- Statement classifier of `query_mysql` (commands.rs:274-278). -/
def isSelectMySql (sql : String) : Bool :=
  let u := rustToUpper (rustTrim sql)
  rustStartsWith u "SELECT" || rustStartsWith u "SHOW" ||
    rustStartsWith u "DESCRIBE" || rustStartsWith u "EXPLAIN"

/-- Statement classifier of `query_postgres` (commands.rs:360-363). -/
def isSelectPostgres (sql : String) : Bool :=
  let u := rustToUpper (rustTrim sql)
  rustStartsWith u "SELECT" || rustStartsWith u "SHOW" ||
    rustStartsWith u "EXPLAIN"

/-- Statement classifier of `query_sqlite` (commands.rs:445-447). -/
def isSelectSqlite (sql : String) : Bool :=
  let u := rustToUpper (rustTrim sql)
  rustStartsWith u "SELECT" || rustStartsWith u "PRAGMA"

/-- Decode cell `i` of a row the way the read paths index cells:
`try_get_raw(i)` out of range errs, which the chain turns into null. -/
def decodeMySqlAt (row : SqlxRow) (i : Nat) : JValue :=
  match row.cells.get? i with
  | some c => decodeMySqlCell c
  | none => JValue.null

/-- Index-based decode for the Postgres read path. -/
def decodePgAt (row : SqlxRow) (i : Nat) : JValue :=
  match row.cells.get? i with
  | some c => decodePgCell c
  | none => JValue.null

/-- Index-based decode for the SQLite read path. -/
def decodeSqliteAt (row : SqlxRow) (i : Nat) : JValue :=
  match row.cells.get? i with
  | some c => decodeSqliteCell c
  | none => JValue.null

/-- `query_mysql` (commands.rs:270-355).  `fetch` is the driver outcome of
`fetch_all`, `exec` the outcome of `execute` with its affected-row count. -/
def query_mysql (fetch : Except String (List SqlxRow))
    (exec : Except String Int) (sql : String) : QueryResult :=
  if isSelectMySql sql then
    match fetch with
    | .ok [] => ⟨[], [], none, none⟩
    | .ok (r :: rs) =>
      let columns := r.colNames
      let data := (r :: rs).map
        (fun row => (List.range columns.length).map (fun i => decodeMySqlAt row i))
      ⟨columns, data, none, none⟩
    | .error e => ⟨[], [], some e, none⟩
  else
    match exec with
    | .ok n => ⟨[], [], none, some n⟩
    | .error e => ⟨[], [], some e, none⟩

/-- `query_postgres` (commands.rs:357-440). -/
def query_postgres (fetch : Except String (List SqlxRow))
    (exec : Except String Int) (sql : String) : QueryResult :=
  if isSelectPostgres sql then
    match fetch with
    | .ok [] => ⟨[], [], none, none⟩
    | .ok (r :: rs) =>
      let columns := r.colNames
      let data := (r :: rs).map
        (fun row => (List.range columns.length).map (fun i => decodePgAt row i))
      ⟨columns, data, none, none⟩
    | .error e => ⟨[], [], some e, none⟩
  else
    match exec with
    | .ok n => ⟨[], [], none, some n⟩
    | .error e => ⟨[], [], some e, none⟩

/-- `query_sqlite` (commands.rs:442-523). -/
def query_sqlite (fetch : Except String (List SqlxRow))
    (exec : Except String Int) (sql : String) : QueryResult :=
  if isSelectSqlite sql then
    match fetch with
    | .ok [] => ⟨[], [], none, none⟩
    | .ok (r :: rs) =>
      let columns := r.colNames
      let data := (r :: rs).map
        (fun row => (List.range columns.length).map (fun i => decodeSqliteAt row i))
      ⟨columns, data, none, none⟩
    | .error e => ⟨[], [], some e, none⟩
  else
    match exec with
    | .ok n => ⟨[], [], none, some n⟩
    | .error e => ⟨[], [], some e, none⟩

/-- Driver-side outcomes the SQL Server query path depends on: the TCP dial,
the tiberius handshake, and `simple_query` delivering its result sets. -/
structure SqlServerOracle where
  tcp : Except String Unit
  client : Except String Unit
  runQuery : Except String (List (List TdsRow))
deriving Repr

/-- Accumulator loop of `query_sqlserver` (commands.rs:556-575): walk all
rows of all result sets, adopt the column names of the first row seen while
`columns` is still empty, decode every row. -/
def ssAccum : List TdsRow → List String → List (List JValue) →
    List String × List (List JValue)
  | [], cols, acc => (cols, acc)
  | r :: rs, cols, acc =>
    let cols2 := if cols.isEmpty then r.colNames else cols
    ssAccum rs cols2 (acc ++ [r.cells.map decodeTdsCell])

/-- `query_sqlserver` (commands.rs:525-591).  Note: no statement
classification and no effect branch — every outcome of `simple_query` is
returned with `affected_rows = none`. -/
def query_sqlserver (o : SqlServerOracle) (_sql : String) : QueryResult :=
  match o.tcp with
  | .error e => ⟨[], [], some e, none⟩
  | .ok _ =>
    match o.client with
    | .error e => ⟨[], [], some e, none⟩
    | .ok _ =>
      match o.runQuery with
      | .error e => ⟨[], [], some e, none⟩
      | .ok resultSets =>
        let p := ssAccum resultSets.flatten [] []
        ⟨p.1, p.2, none, none⟩

/-- Engine kind tag of `DbConnection` (database.rs:80-85); the pooled /
config payloads are irrelevant to the registered-state claims. -/
inductive Engine where
  | mysql
  | postgres
  | sqlite
  | sqlserver
deriving DecidableEq, Repr

/-- `ConnectionConfig` (database.rs:24-40). -/
structure ConnectionConfig where
  id : String
  db_type : String
  name : String
  host : String
  port : Nat
  username : String
  password : String
  database : Option String
  ssh_enabled : Option Bool
  ssh_host : Option String
  ssh_port : Option Nat
  ssh_user : Option String
  ssh_password : Option String
  ssh_key : Option String
deriving DecidableEq, Repr

/-- The registry payload `Arc<ConnectionInfo>` (database.rs:92-96), reduced
to what lookups observe: the engine variant, the originating config id and
whether an SSH tunnel is owned. -/
structure ConnInfo where
  connection : Engine
  configId : String
  hasTunnel : Bool
deriving DecidableEq, Repr

/-- The `CONNECTIONS` map (database.rs:99-100), as an association list with
`HashMap` insert/remove semantics. -/
abbrev Registry := List (String × ConnInfo)

/-- `HashMap::insert`: replace the entry under the key if present, else add
a new one. -/
def insertReg (reg : Registry) (k : String) (v : ConnInfo) : Registry :=
  if reg.any (fun p => p.1 == k) then
    reg.map (fun p => if p.1 == k then (k, v) else p)
  else
    (k, v) :: reg

/-- `HashMap::remove`. -/
def removeReg (reg : Registry) (k : String) : Registry :=
  reg.filter (fun p => p.1 != k)

/-- `HashMap::get` followed by cloning the shared reference. -/
def lookupReg (reg : Registry) (k : String) : Option ConnInfo :=
  (reg.find? (fun p => p.1 == k)).map (fun p => p.2)

/-- `CommandResult` (commands.rs:12-16). -/
structure CommandResult where
  success : Bool
  message : String
deriving DecidableEq, Repr

/-- `resolve_host` (database.rs:255-261). -/
def resolve_host (host : String) : String :=
  if host = "localhost" then "127.0.0.1" else host

/-- Whether the config asks for a tunnel and provides an SSH host — the
condition under which `db_test` / `db_connect` create one
(commands.rs:48-49, 135-136). -/
def tunnelRequested (cfg : ConnectionConfig) : Bool :=
  cfg.ssh_enabled.getD false && cfg.ssh_host.isSome

/-- Shared prologue of `db_test` (commands.rs:43-72) and `db_connect`
(commands.rs:130-159): resolve the host, then, when a tunnel is requested,
replace the target by the tunnel-local endpoint or fail with the SSH
message.  `tunnel` is the oracle outcome of `SshTunnel::create` carrying
the chosen local port. -/
def computeTarget (cfg : ConnectionConfig) (tunnel : Except String Nat) :
    Except String (String × Nat) :=
  if cfg.ssh_enabled.getD false then
    match cfg.ssh_host with
    | some _ =>
      match tunnel with
      | .ok port => .ok ("127.0.0.1", port)
      | .error e => .error ("SSH 隧道失败: " ++ e)
    | none => .ok (resolve_host cfg.host, cfg.port)
  else .ok (resolve_host cfg.host, cfg.port)

/-- `DbError::UnsupportedType` display string (database.rs:16-17). -/
def unsupportedTypeMsg (t : String) : String :=
  "不支持的数据库类型: " ++ t

/-- The engine selected by the `db_type` match arms of `db_test` /
`db_connect` (commands.rs:74-107, 161-194). -/
def engineOfType (t : String) : Option Engine :=
  if t = "mysql" ∨ t = "mariadb" then some Engine.mysql
  else if t = "postgres" then some Engine.postgres
  else if t = "sqlite" then some Engine.sqlite
  else if t = "sqlserver" then some Engine.sqlserver
  else none

/-- `db_test` (commands.rs:41-126) as a transformer of the registry it
never touches.  `tunnel` and `probe` are the oracle outcomes of tunnel
creation and of the per-engine `test_*` probe. -/
def db_test (cfg : ConnectionConfig) (tunnel : Except String Nat)
    (probe : Except String Unit) (reg : Registry) : CommandResult × Registry :=
  match computeTarget cfg tunnel with
  | .error e => (⟨false, e⟩, reg)
  | .ok _ =>
    match engineOfType cfg.db_type with
    | none => (⟨false, unsupportedTypeMsg cfg.db_type⟩, reg)
    | some _ =>
      match probe with
      | .ok _ =>
        (⟨true, if tunnelRequested cfg then "连接成功 (SSH隧道)" else "连接成功"⟩, reg)
      | .error e => (⟨false, e⟩, reg)

/-- `db_connect` (commands.rs:128-222).  `conn` is the oracle outcome of
the per-engine `connect_*`; on success the session is inserted under
`cfg.id`. -/
def db_connect (cfg : ConnectionConfig) (tunnel : Except String Nat)
    (conn : Except String Unit) (reg : Registry) : CommandResult × Registry :=
  match computeTarget cfg tunnel with
  | .error e => (⟨false, e⟩, reg)
  | .ok _ =>
    match engineOfType cfg.db_type with
    | none => (⟨false, unsupportedTypeMsg cfg.db_type⟩, reg)
    | some eng =>
      match conn with
      | .ok _ =>
        let info : ConnInfo := ⟨eng, cfg.id, tunnelRequested cfg⟩
        (⟨true, if tunnelRequested cfg then "连接成功 (SSH隧道)" else "连接成功"⟩,
          insertReg reg cfg.id info)
      | .error e => (⟨false, e⟩, reg)

/-- `db_disconnect` (commands.rs:224-238). -/
def db_disconnect (i : String) (reg : Registry) : CommandResult × Registry :=
  if (lookupReg reg i).isSome then
    (⟨true, "断开成功"⟩, removeReg reg i)
  else
    (⟨false, "连接不存在"⟩, reg)

/-- The not-connected result `db_query` returns for an unknown session id
(commands.rs:245-250). -/
def notConnectedResult : QueryResult :=
  ⟨[], [], some "未连接", none⟩

/-- Driver oracles for one `db_query` dispatch. -/
structure QueryOracle where
  fetch : Except String (List SqlxRow)
  exec : Except String Int
  ss : SqlServerOracle
deriving Repr

/-- `db_query` (commands.rs:240-268): look the session up, dispatch on the
engine variant. -/
def db_query (i : String) (sql : String) (reg : Registry) (o : QueryOracle) :
    QueryResult :=
  match lookupReg reg i with
  | none => notConnectedResult
  | some info =>
    match info.connection with
    | .mysql => query_mysql o.fetch o.exec sql
    | .postgres => query_postgres o.fetch o.exec sql
    | .sqlite => query_sqlite o.fetch o.exec sql
    | .sqlserver => query_sqlserver o.ss sql

/-- The single-quote character, by code point. -/
def sq : Char := Char.ofNat 39

/-- The backtick character, by code point. -/
def backtick : Char := Char.ofNat 96

/-- The single-quote character as a one-character string. -/
def sqStr : String := String.singleton sq

/-- Rust `s.replace(single_quote, two_single_quotes)` on the character
list: the escaping applied to string values before interpolation
(commands.rs:1110, 1120, 1209). -/
def escChars : List Char → List Char
  | [] => []
  | c :: cs => if c = sq then sq :: sq :: escChars cs else c :: escChars cs

/-- String-level wrapper of `escChars`. -/
def sqlEscape (s : String) : String :=
  ⟨escChars s.data⟩

/-- Modelled from the spec: how a SQL engine reads the body of a
single-quoted string literal — a doubled quote denotes one quote, a single
quote ends the literal.  Used to state the O-Brien round-trip property. -/
def sqlUnquote : List Char → List Char
  | [] => []
  | [c] => if c = sq then [] else [c]
  | c :: c2 :: cs =>
    if c = sq then
      if c2 = sq then sq :: sqlUnquote cs else []
    else c :: sqlUnquote (c2 :: cs)

/-- Rust `str::replace` for a one-character pattern, on character lists:
the identifier-quoting rewrites applied to the whole SET clause
(commands.rs:1131, 1140, 1149, 1159). -/
def replChar (pat : Char) (rep : List Char) : List Char → List Char
  | [] => []
  | c :: cs =>
    if c = pat then rep ++ replChar pat rep cs
    else c :: replChar pat rep cs

/-- String-level wrapper of `replChar`. -/
def replStr (pat : Char) (rep : List Char) (s : String) : String :=
  ⟨replChar pat rep s.data⟩

/-- `serde_json::Value` as the mutation commands consume it.  Numbers and
arrays are carried together with their serde rendering (`to_string`);
objects carry their fields and their rendering. -/
inductive JsonVal where
  | null
  | bool (b : Bool)
  | num (rendered : String)
  | str (s : String)
  | arr (rendered : String)
  | obj (fields : List (String × JsonVal)) (rendered : String)
deriving Repr

/-- `Value::get(key)` on objects. -/
def jsonGet (v : JsonVal) (key : String) : Option JsonVal :=
  match v with
  | .obj fields _ => (fields.find? (fun kv => kv.1 == key)).map (fun kv => kv.2)
  | _ => none

/-- `Value::as_str`. -/
def jsonAsStr : JsonVal → Option String
  | .str s => some s
  | _ => none

/-- `Value::as_object`, keeping only the field list. -/
def jsonAsObject : JsonVal → Option (List (String × JsonVal))
  | .obj fields _ => some fields
  | _ => none

/-- `Value::as_i64`: only integer numbers; the embedding only ever applies
it to decoded cells, so it lives on `JValue`. -/
def jvalAsI64 : JValue → Option Int
  | .int n => some n
  | _ => none

/-- Value formatting of the SET clause of `db_update_row`
(commands.rs:1108-1114): null → NULL, strings quoted with quotes doubled,
numbers by their native rendering, booleans as 1/0, anything else rendered
then quoted with quotes doubled. -/
def updateLit : JsonVal → String
  | .null => "NULL"
  | .str s => sqStr ++ sqlEscape s ++ sqStr
  | .num n => n
  | .bool b => if b then "1" else "0"
  | .arr r => sqStr ++ sqlEscape r ++ sqStr
  | .obj _ r => sqStr ++ sqlEscape r ++ sqStr

/-- Primary-key value formatting of `db_update_row` / `db_delete_row`
(commands.rs:1119-1123, 1208-1212): strings quoted and escaped, numbers
native, anything else rendered by `to_string` and quoted WITHOUT escaping. -/
def pkLit : JsonVal → String
  | .str s => sqStr ++ sqlEscape s ++ sqStr
  | .num n => n
  | .null => sqStr ++ "null" ++ sqStr
  | .bool b => sqStr ++ (if b then "true" else "false") ++ sqStr
  | .arr r => sqStr ++ r ++ sqStr
  | .obj _ r => sqStr ++ r ++ sqStr

/-- The joined SET clause before the engine-specific identifier rewrite
(commands.rs:1105-1117): backtick-quoted column, `=`, formatted value,
joined by commas. -/
def setClause (updates : List (String × JsonVal)) : String :=
  String.intercalate ", "
    (updates.map (fun kv => "`" ++ kv.1 ++ "` = " ++ updateLit kv.2))

/-- UPDATE statement for MySQL (commands.rs:1126-1135); the backtick →
backtick replace is the identity rewrite the code applies. -/
def updateSqlMySql (database table pk_col : String) (pk_val : JsonVal)
    (updates : List (String × JsonVal)) : String :=
  "USE `" ++ database ++ "`; UPDATE `" ++ table ++ "` SET " ++
    replStr backtick [backtick] (setClause updates) ++
    " WHERE `" ++ pk_col ++ "` = " ++ pkLit pk_val

/-- UPDATE statement for Postgres (commands.rs:1136-1144): every backtick
in the SET clause — identifier quotes and backticks inside values alike —
becomes a double quote. -/
def updateSqlPostgres (table pk_col : String) (pk_val : JsonVal)
    (updates : List (String × JsonVal)) : String :=
  "UPDATE \"" ++ table ++ "\" SET " ++
    replStr backtick ['"'] (setClause updates) ++
    " WHERE \"" ++ pk_col ++ "\" = " ++ pkLit pk_val

/-- UPDATE statement for SQLite (commands.rs:1145-1153), same rewrite as
Postgres. -/
def updateSqlSqlite (table pk_col : String) (pk_val : JsonVal)
    (updates : List (String × JsonVal)) : String :=
  "UPDATE \"" ++ table ++ "\" SET " ++
    replStr backtick ['"'] (setClause updates) ++
    " WHERE \"" ++ pk_col ++ "\" = " ++ pkLit pk_val

/-- UPDATE statement for SQL Server (commands.rs:1154-1163): backticks
become `[`, and the `]` → `]` replace is the identity. -/
def updateSqlSqlServer (database table pk_col : String) (pk_val : JsonVal)
    (updates : List (String × JsonVal)) : String :=
  "USE [" ++ database ++ "]; UPDATE [" ++ table ++ "] SET " ++
    replStr ']' [']'] (replStr backtick ['['] (setClause updates)) ++
    " WHERE [" ++ pk_col ++ "] = " ++ pkLit pk_val

/-- Engine dispatch of the UPDATE builder (commands.rs:1125-1164). -/
def updateSqlFor (eng : Engine) (database table pk_col : String)
    (pk_val : JsonVal) (updates : List (String × JsonVal)) : String :=
  match eng with
  | .mysql => updateSqlMySql database table pk_col pk_val updates
  | .postgres => updateSqlPostgres table pk_col pk_val updates
  | .sqlite => updateSqlSqlite table pk_col pk_val updates
  | .sqlserver => updateSqlSqlServer database table pk_col pk_val updates

/-- DELETE statements of `db_delete_row` (commands.rs:1214-1227). -/
def deleteSqlFor (eng : Engine) (database table pk_col : String)
    (pk_val : JsonVal) : String :=
  match eng with
  | .mysql =>
    "USE `" ++ database ++ "`; DELETE FROM `" ++ table ++ "` WHERE `" ++
      pk_col ++ "` = " ++ pkLit pk_val
  | .postgres =>
    "DELETE FROM \"" ++ table ++ "\" WHERE \"" ++ pk_col ++ "\" = " ++ pkLit pk_val
  | .sqlite =>
    "DELETE FROM \"" ++ table ++ "\" WHERE \"" ++ pk_col ++ "\" = " ++ pkLit pk_val
  | .sqlserver =>
    "USE [" ++ database ++ "]; DELETE FROM [" ++ table ++ "] WHERE [" ++
      pk_col ++ "] = " ++ pkLit pk_val

/-- What one `db_update_row` / `db_delete_row` call did: its command
result, the SQL it sent through `db_query` (if any), and the registry
afterwards. -/
structure MutationOutcome where
  result : CommandResult
  executedSql : Option String
  registryAfter : Registry
deriving Repr

/-- `db_update_row` (commands.rs:1073-1178). -/
def db_update_row (i database table : String) (primary_key updates : JsonVal)
    (reg : Registry) (o : QueryOracle) : MutationOutcome :=
  match lookupReg reg i with
  | none => ⟨⟨false, "未连接"⟩, none, reg⟩
  | some info =>
    let pk_col := ((jsonGet primary_key "column").bind jsonAsStr).getD ""
    let pk_val := jsonGet primary_key "value"
    let updates_obj := jsonAsObject updates
    if pk_col.isEmpty || pk_val.isNone || updates_obj.isNone then
      ⟨⟨false, "参数错误"⟩, none, reg⟩
    else
      let sql := updateSqlFor info.connection database table pk_col
        (pk_val.getD JsonVal.null) (updates_obj.getD [])
      let r := db_query i sql reg o
      if r.error.isSome then
        ⟨⟨false, r.error.getD ""⟩, some sql, reg⟩
      else
        ⟨⟨true, "更新成功，影响 " ++ toString (r.affected_rows.getD 0) ++ " 行"⟩,
          some sql, reg⟩

/-- `db_delete_row` (commands.rs:1180-1241). -/
def db_delete_row (i database table : String) (primary_key : JsonVal)
    (reg : Registry) (o : QueryOracle) : MutationOutcome :=
  match lookupReg reg i with
  | none => ⟨⟨false, "未连接"⟩, none, reg⟩
  | some info =>
    let pk_col := ((jsonGet primary_key "column").bind jsonAsStr).getD ""
    let pk_val := jsonGet primary_key "value"
    if pk_col.isEmpty || pk_val.isNone then
      ⟨⟨false, "参数错误"⟩, none, reg⟩
    else
      let sql := deleteSqlFor info.connection database table pk_col
        (pk_val.getD JsonVal.null)
      let r := db_query i sql reg o
      if r.error.isSome then
        ⟨⟨false, r.error.getD ""⟩, some sql, reg⟩
      else
        ⟨⟨true, "删除成功，影响 " ++ toString (r.affected_rows.getD 0) ++ " 行"⟩,
          some sql, reg⟩

/-- `ColumnInfo` (database.rs:50-58). -/
structure ColumnInfo where
  name : String
  data_type : String
  nullable : Bool
  key : Option String
  comment : Option String
deriving DecidableEq, Repr

/-- `TableDataResult` (database.rs:69-77). -/
structure TableDataResult where
  columns : List ColumnInfo
  rows : List (List JValue)
  total : Int
  page : Int
  page_size : Int
deriving DecidableEq, Repr

/-- Paged SELECT for MySQL (commands.rs:998). -/
def pageSqlMySql (table : String) (page_size offset : Int) : String :=
  "SELECT * FROM `" ++ table ++ "` LIMIT " ++ toString page_size ++
    " OFFSET " ++ toString offset

/-- Paged SELECT for Postgres (commands.rs:1016). -/
def pageSqlPostgres (table : String) (page_size offset : Int) : String :=
  "SELECT * FROM \"" ++ table ++ "\" LIMIT " ++ toString page_size ++
    " OFFSET " ++ toString offset

/-- Paged SELECT for SQLite (commands.rs:1034). -/
def pageSqlSqlite (table : String) (page_size offset : Int) : String :=
  "SELECT * FROM \"" ++ table ++ "\" LIMIT " ++ toString page_size ++
    " OFFSET " ++ toString offset

/-- COUNT query for SQL Server paging (commands.rs:1046-1049). -/
def countSqlSqlServer (database table : String) : String :=
  "USE [" ++ database ++ "]; SELECT COUNT(*) FROM [" ++ table ++ "]"

/-- Paged SELECT for SQL Server (commands.rs:1056-1059), OFFSET/FETCH with
the no-op ORDER BY substitution. -/
def pageSqlSqlServer (database table : String) (page_size offset : Int) : String :=
  "USE [" ++ database ++ "]; SELECT * FROM [" ++ table ++
    "] ORDER BY (SELECT NULL) OFFSET " ++ toString offset ++
    " ROWS FETCH NEXT " ++ toString page_size ++ " ROWS ONLY"

/-- Oracles for one `db_get_table_data` call: the `db_get_columns` result,
the pooled COUNT(*) outcome, and the driver oracles behind the page query
and (for SQL Server) the count query. -/
structure TablePageOracle where
  columnsResult : List ColumnInfo
  countResult : Except String Int
  queryOracle : QueryOracle
  countQueryOracle : QueryOracle
deriving Repr

/-- `db_get_table_data` (commands.rs:959-1071): resolve the page defaults,
compute the offset, look the session up, then fetch COUNT and the window
through the engine-specific SQL. -/
def db_get_table_data (i database table : String)
    (pageOpt pageSizeOpt : Option Int) (reg : Registry) (o : TablePageOracle) :
    TableDataResult :=
  let page := pageOpt.getD 1
  let page_size := pageSizeOpt.getD 100
  let offset := (page - 1) * page_size
  match lookupReg reg i with
  | none => ⟨[], [], 0, page, page_size⟩
  | some info =>
    let columns := o.columnsResult
    match info.connection with
    | .mysql =>
      let total := match o.countResult with | .ok c => c | .error _ => 0
      let result := db_query i (pageSqlMySql table page_size offset) reg o.queryOracle
      ⟨columns, result.rows, total, page, page_size⟩
    | .postgres =>
      let total := match o.countResult with | .ok c => c | .error _ => 0
      let result := db_query i (pageSqlPostgres table page_size offset) reg o.queryOracle
      ⟨columns, result.rows, total, page, page_size⟩
    | .sqlite =>
      let total := match o.countResult with | .ok c => c | .error _ => 0
      let result := db_query i (pageSqlSqlite table page_size offset) reg o.queryOracle
      ⟨columns, result.rows, total, page, page_size⟩
    | .sqlserver =>
      let countRes := db_query i (countSqlSqlServer database table) reg o.countQueryOracle
      let total := ((countRes.rows.head?.bind List.head?).bind jvalAsI64).getD 0
      let result := db_query i (pageSqlSqlServer database table page_size offset)
        reg o.queryOracle
      ⟨columns, result.rows, total, page, page_size⟩

/-- Modelled from the spec: the external engine's native LIMIT/OFFSET (or
OFFSET/FETCH) windowing — the rows `[offset, offset + limit)` of the table
in natural order. -/
def sqlWindow {α : Type} (t : List α) (limit offset : Int) : List α :=
  (t.drop offset.toNat).take limit.toNat

/-- The authentication action the tunnel worker performs. -/
inductive AuthAction where
  | useKey (user : String) (path : String)
  | usePassword (user : String) (pw : String)
  | noAttempt
deriving DecidableEq, Repr

/-- Authentication choice of `run_tunnel` (ssh.rs:104-111): a key path
takes the pubkey-file arm regardless of any password; otherwise a password
takes the password arm; with neither, the worker logs and returns without
attempting authentication. -/
def chooseAuth (ssh_user : String) (ssh_password ssh_key : Option String) :
    AuthAction :=
  match ssh_key with
  | some key_path => AuthAction.useKey ssh_user key_path
  | none =>
    match ssh_password with
    | some pw => AuthAction.usePassword ssh_user pw
    | none => AuthAction.noAttempt

/-! Registry lemmas shared by the session-state claims. -/

theorem findReplace (k : String) (v : ConnInfo) :
    ∀ reg : Registry, reg.any (fun p => p.1 == k) = true →
      (reg.map (fun p => if p.1 == k then (k, v) else p)).find?
        (fun p => p.1 == k) = some (k, v) := by
  intro reg h
  induction reg with
  | nil => simp at h
  | cons p ps ih =>
    simp only [List.map_cons]
    by_cases hp : (p.1 == k) = true
    · rw [if_pos hp]
      exact List.find?_cons_of_pos _ (by simp)
    · rw [if_neg hp]
      rw [List.find?_cons_of_neg _ (by simp [hp])]
      exact ih (by simpa [List.any_cons, hp] using h)

theorem lookupReg_insertReg_self (reg : Registry) (k : String) (v : ConnInfo) :
    lookupReg (insertReg reg k v) k = some v := by
  unfold insertReg lookupReg
  by_cases h : reg.any (fun p => p.1 == k) = true
  · rw [if_pos h, findReplace k v reg h]
    rfl
  · rw [if_neg h, List.find?_cons_of_pos _ (by simp)]
    rfl

theorem lookupReg_removeReg_self (reg : Registry) (k : String) :
    lookupReg (removeReg reg k) k = none := by
  unfold removeReg lookupReg
  have h2 : (reg.filter (fun p => p.1 != k)).find? (fun p => p.1 == k) = none := by
    refine List.find?_eq_none.mpr ?_
    intro x hx
    have hmem : (x.1 != k) = true := (List.mem_filter.mp hx).2
    simp only [bne_iff_ne, ne_eq] at hmem
    simp [hmem]
  rw [h2]
  rfl

/-- C3: for every engine kind and config, a successful `db_connect`
followed by `db_disconnect(config.id)` leaves no registry entry for that
id, and a subsequent `db_query` against the id returns the NotConnected
result — the not-connected message, empty columns, empty rows, no
affected-row count. -/
theorem connect_disconnect_not_connected
    (cfg : ConnectionConfig) (tunnel : Except String Nat) (reg : Registry)
    (tgt : String × Nat) (eng : Engine)
    (htar : computeTarget cfg tunnel = .ok tgt)
    (heng : engineOfType cfg.db_type = some eng) :
    lookupReg (db_disconnect cfg.id (db_connect cfg tunnel (.ok ()) reg).2).2 cfg.id
      = none ∧
    ∀ sql o, db_query cfg.id sql
      (db_disconnect cfg.id (db_connect cfg tunnel (.ok ()) reg).2).2 o =
      notConnectedResult := by
  have h1 : (db_connect cfg tunnel (.ok ()) reg).2 =
      insertReg reg cfg.id ⟨eng, cfg.id, tunnelRequested cfg⟩ := by
    unfold db_connect
    rw [htar, heng]
  have h2 : lookupReg (db_connect cfg tunnel (.ok ()) reg).2 cfg.id =
      some ⟨eng, cfg.id, tunnelRequested cfg⟩ := by
    rw [h1]
    exact lookupReg_insertReg_self ..
  have h3 : (db_disconnect cfg.id (db_connect cfg tunnel (.ok ()) reg).2).2 =
      removeReg (db_connect cfg tunnel (.ok ()) reg).2 cfg.id := by
    unfold db_disconnect
    rw [h2]
    rfl
  have h4 : lookupReg
      (db_disconnect cfg.id (db_connect cfg tunnel (.ok ()) reg).2).2 cfg.id = none := by
    rw [h3]
    exact lookupReg_removeReg_self ..
  refine ⟨h4, fun sql o => ?_⟩
  unfold db_query
  rw [h4]

/-- Sample config used to instantiate the session-state theorems. -/
def cfgSample : ConnectionConfig :=
  ⟨"s1", "mysql", "demo", "db.example.com", 3306, "root", "pw",
    none, none, none, none, none, none, none⟩

/-- Witness for C3 at a concrete config, empty registry and oracle. -/
theorem connect_disconnect_not_connected_witness :
    lookupReg (db_disconnect cfgSample.id
      (db_connect cfgSample (.ok 0) (.ok ()) []).2).2 cfgSample.id = none :=
  (connect_disconnect_not_connected cfgSample (.ok 0) []
    ("db.example.com", 3306) .mysql rfl rfl).1

/-- C6: `db_test` is registry-neutral in every branch — SSH failure,
engine probe success or failure, and unrecognized engine kinds alike. -/
theorem db_test_frame :
    ∀ (cfg : ConnectionConfig) (tunnel : Except String Nat)
      (probe : Except String Unit) (reg : Registry),
      (db_test cfg tunnel probe reg).2 = reg := by
  intro cfg tunnel probe reg
  unfold db_test
  cases computeTarget cfg tunnel with
  | error e => rfl
  | ok t =>
    cases engineOfType cfg.db_type with
    | none => rfl
    | some eng => cases probe <;> rfl

/-- C7: `resolve_host` rewrites exactly the literal "localhost" to
"127.0.0.1" and keeps every other host; every dial target `db_test` /
`db_connect` compute is either the resolved config host or the
tunnel-local loopback, never the literal "localhost". -/
theorem resolve_host_policy :
    (resolve_host "localhost" = "127.0.0.1") ∧
    (∀ h, h ≠ "localhost" → resolve_host h = h) ∧
    (∀ h, resolve_host h ≠ "localhost") ∧
    (∀ cfg tunnel host port, computeTarget cfg tunnel = .ok (host, port) →
      host = resolve_host cfg.host ∨ host = "127.0.0.1") := by
  refine ⟨rfl, fun h hne => if_neg hne, fun h => ?_, ?_⟩
  · unfold resolve_host
    by_cases hc : h = "localhost"
    · rw [if_pos hc]
      decide
    · rw [if_neg hc]
      exact hc
  · intro cfg tunnel host port heq
    unfold computeTarget at heq
    by_cases hs : cfg.ssh_enabled.getD false = true
    · rw [if_pos hs] at heq
      cases hh : cfg.ssh_host with
      | none =>
        rw [hh] at heq
        cases heq
        exact Or.inl rfl
      | some sh =>
        rw [hh] at heq
        cases tunnel with
        | ok p =>
          cases heq
          exact Or.inr rfl
        | error e => cases heq
    · rw [if_neg hs] at heq
      cases heq
      exact Or.inl rfl

/-- Witness for C7 at a concrete non-localhost host and config. -/
theorem resolve_host_policy_witness :
    resolve_host "db.example.com" = "db.example.com" ∧
    ("db.example.com" = resolve_host cfgSample.host ∨ "db.example.com" = "127.0.0.1") :=
  ⟨resolve_host_policy.2.1 "db.example.com" (by decide),
   resolve_host_policy.2.2.2 cfgSample (.ok 0) "db.example.com" 3306 rfl⟩

/-- C8: the tunnel worker authenticates with the key file whenever a key
path is supplied (the password is ignored), with the password only when no
key path is given, and attempts no authentication when neither is given. -/
theorem ssh_auth_precedence :
    (∀ u pw k, chooseAuth u (some pw) (some k) = AuthAction.useKey u k) ∧
    (∀ u k, chooseAuth u none (some k) = AuthAction.useKey u k) ∧
    (∀ u pw, chooseAuth u (some pw) none = AuthAction.usePassword u pw) ∧
    (∀ u, chooseAuth u none none = AuthAction.noAttempt) ∧
    (∀ u pw k, chooseAuth u pw (some k) = AuthAction.useKey u k) :=
  ⟨fun _ _ _ => rfl, fun _ _ => rfl, fun _ _ => rfl, fun _ => rfl,
   fun _ _ _ => rfl⟩

/-! Registry invariant machinery for C9. -/

/-- A connect or disconnect call with its driver outcomes. -/
inductive RegOp where
  | connect (cfg : ConnectionConfig) (tunnel : Except String Nat)
      (conn : Except String Unit)
  | disconnect (i : String)

/-- The registry after one command. -/
def applyOp (reg : Registry) : RegOp → Registry
  | .connect cfg tunnel conn => (db_connect cfg tunnel conn reg).2
  | .disconnect i => (db_disconnect i reg).2

/-- The registry after a sequence of commands. -/
def applyOps (reg : Registry) (ops : List RegOp) : Registry :=
  ops.foldl applyOp reg

/-- How many entries a registry holds under one id. -/
def countKey (reg : Registry) (k : String) : Nat :=
  (reg.filter (fun p => p.1 == k)).length

/-- The registry invariant: at most one entry per session id. -/
def atMostOnePerId (reg : Registry) : Prop :=
  ∀ k, countKey reg k ≤ 1

theorem countKey_map_replace (reg : Registry) (k : String) (v : ConnInfo)
    (k2 : String) :
    countKey (reg.map (fun p => if p.1 == k then (k, v) else p)) k2 =
      countKey reg k2 := by
  unfold countKey
  rw [List.filter_map, List.length_map]
  congr 1
  apply List.filter_congr
  intro p _
  by_cases h : (p.1 == k) = true
  · have hkp : p.1 = k := by simpa using h
    simp only [Function.comp_apply, if_pos h]
    rw [← hkp]
  · simp only [Function.comp_apply, if_neg h]

theorem countKey_zero_of_any_false (reg : Registry) (k : String)
    (h : reg.any (fun p => p.1 == k) = false) : countKey reg k = 0 := by
  unfold countKey
  have : reg.filter (fun p => p.1 == k) = [] := by
    rw [List.filter_eq_nil_iff]
    intro a ha
    exact (List.any_eq_false.mp h) a ha
  rw [this]
  rfl

theorem atMostOne_insertReg (reg : Registry) (k : String) (v : ConnInfo)
    (h : atMostOnePerId reg) : atMostOnePerId (insertReg reg k v) := by
  intro k2
  unfold insertReg
  by_cases ha : reg.any (fun p => p.1 == k) = true
  · rw [if_pos ha, countKey_map_replace]
    exact h k2
  · rw [if_neg ha]
    unfold countKey
    simp only [List.filter_cons]
    by_cases h2 : ((k, v).1 == k2) = true
    · have hk : k = k2 := by simpa using h2
      subst hk
      have ha2 : reg.any (fun p => p.1 == k) = false := by
        rw [Bool.not_eq_true] at ha
        exact ha
      have hz : countKey reg k = 0 := countKey_zero_of_any_false reg k ha2
      unfold countKey at hz
      simp [h2, hz]
    · simp only [h2]
      exact h k2

theorem atMostOne_removeReg (reg : Registry) (i : String)
    (h : atMostOnePerId reg) : atMostOnePerId (removeReg reg i) := by
  intro k2
  unfold countKey removeReg
  have hs : ((reg.filter (fun p => p.1 != i)).filter (fun p => p.1 == k2)).Sublist
      (reg.filter (fun p => p.1 == k2)) :=
    List.Sublist.filter _ (List.filter_sublist reg)
  exact le_trans hs.length_le (h k2)

theorem db_connect_snd (cfg : ConnectionConfig) (tunnel : Except String Nat)
    (conn : Except String Unit) (reg : Registry) :
    (db_connect cfg tunnel conn reg).2 = reg ∨
    ∃ v, (db_connect cfg tunnel conn reg).2 = insertReg reg cfg.id v := by
  unfold db_connect
  cases computeTarget cfg tunnel with
  | error e => exact Or.inl rfl
  | ok t =>
    cases engineOfType cfg.db_type with
    | none => exact Or.inl rfl
    | some eng =>
      cases conn with
      | ok u => exact Or.inr ⟨_, rfl⟩
      | error e => exact Or.inl rfl

theorem db_disconnect_snd (i : String) (reg : Registry) :
    (db_disconnect i reg).2 = reg ∨ (db_disconnect i reg).2 = removeReg reg i := by
  unfold db_disconnect
  by_cases h : (lookupReg reg i).isSome = true
  · rw [if_pos h]
    exact Or.inr rfl
  · rw [if_neg h]
    exact Or.inl rfl

theorem atMostOne_applyOp (reg : Registry) (op : RegOp)
    (h : atMostOnePerId reg) : atMostOnePerId (applyOp reg op) := by
  cases op with
  | connect cfg tunnel conn =>
    rcases db_connect_snd cfg tunnel conn reg with he | ⟨v, he⟩
    · simpa only [applyOp, he] using h
    · simp only [applyOp, he]
      exact atMostOne_insertReg reg cfg.id v h
  | disconnect i =>
    rcases db_disconnect_snd i reg with he | he
    · simpa only [applyOp, he] using h
    · simp only [applyOp, he]
      exact atMostOne_removeReg reg i h

theorem atMostOne_applyOps (ops : List RegOp) :
    ∀ reg, atMostOnePerId reg → atMostOnePerId (applyOps reg ops) := by
  induction ops with
  | nil => exact fun reg h => h
  | cons op rest ih =>
    intro reg h
    exact ih (applyOp reg op) (atMostOne_applyOp reg op h)

theorem atMostOne_empty : atMostOnePerId ([] : Registry) := by
  intro k
  simp [countKey]

/-- C9: a successful `db_connect` for an id already in the registry
silently replaces the entry (and still reports success), and any sequence
of connect/disconnect commands starting from the empty registry keeps at
most one entry per session id. -/
theorem registry_single_entry :
    (∀ (reg : Registry) (cfg : ConnectionConfig) (tunnel : Except String Nat)
        (tgt : String × Nat) (eng : Engine) (v0 : ConnInfo),
      computeTarget cfg tunnel = .ok tgt →
      engineOfType cfg.db_type = some eng →
      lookupReg reg cfg.id = some v0 →
      (db_connect cfg tunnel (.ok ()) reg).1.success = true ∧
      lookupReg (db_connect cfg tunnel (.ok ()) reg).2 cfg.id =
        some ⟨eng, cfg.id, tunnelRequested cfg⟩) ∧
    ∀ ops : List RegOp, atMostOnePerId (applyOps [] ops) := by
  constructor
  · intro reg cfg tunnel tgt eng v0 htar heng _hv
    have hsnd : (db_connect cfg tunnel (.ok ()) reg).2 =
        insertReg reg cfg.id ⟨eng, cfg.id, tunnelRequested cfg⟩ := by
      unfold db_connect
      rw [htar, heng]
    have hfst : (db_connect cfg tunnel (.ok ()) reg).1.success = true := by
      unfold db_connect
      rw [htar, heng]
    refine ⟨hfst, ?_⟩
    rw [hsnd]
    exact lookupReg_insertReg_self ..
  · intro ops
    exact atMostOne_applyOps ops [] atMostOne_empty

/-- Registry with one registered MySQL session, for the witnesses. -/
def regW : Registry := [("s1", ⟨Engine.mysql, "s1", false⟩)]

/-- A trivial driver oracle for the witnesses. -/
def oracleW : QueryOracle := ⟨.ok [], .ok 0, ⟨.ok (), .ok (), .ok []⟩⟩

/-- Witness for C9: reconnecting over an existing entry replaces it, and a
concrete command sequence keeps the one-entry-per-id invariant. -/
theorem registry_single_entry_witness :
    lookupReg (db_connect cfgSample (.ok 0) (.ok ())
        [("s1", ⟨Engine.postgres, "s1", true⟩)]).2 cfgSample.id =
      some ⟨Engine.mysql, "s1", false⟩ ∧
    atMostOnePerId (applyOps []
      [RegOp.connect cfgSample (.ok 0) (.ok ()),
       RegOp.connect cfgSample (.ok 0) (.ok ()),
       RegOp.disconnect "s1"]) :=
  ⟨(registry_single_entry.1 [("s1", ⟨Engine.postgres, "s1", true⟩)] cfgSample
      (.ok 0) ("db.example.com", 3306) .mysql ⟨Engine.postgres, "s1", true⟩
      rfl rfl rfl).2,
   registry_single_entry.2 _⟩

/-- C10: for a registered session, `db_update_row` with an empty or
missing primary-key column, a missing primary-key value, or a non-object
updates argument, and `db_delete_row` with an empty or missing primary-key
column or a missing primary-key value, fail with the parameter-error
message, send no SQL, and leave the registry unchanged. -/
theorem mutation_param_validation
    (i database table : String) (reg : Registry) (o : QueryOracle)
    (info : ConnInfo) (hreg : lookupReg reg i = some info) :
    (∀ primary_key updates,
      ((jsonGet primary_key "column").bind jsonAsStr).getD "" = "" →
      db_update_row i database table primary_key updates reg o =
        ⟨⟨false, "参数错误"⟩, none, reg⟩) ∧
    (∀ primary_key updates, jsonGet primary_key "value" = none →
      db_update_row i database table primary_key updates reg o =
        ⟨⟨false, "参数错误"⟩, none, reg⟩) ∧
    (∀ primary_key updates, jsonAsObject updates = none →
      db_update_row i database table primary_key updates reg o =
        ⟨⟨false, "参数错误"⟩, none, reg⟩) ∧
    (∀ primary_key,
      ((jsonGet primary_key "column").bind jsonAsStr).getD "" = "" →
      db_delete_row i database table primary_key reg o =
        ⟨⟨false, "参数错误"⟩, none, reg⟩) ∧
    (∀ primary_key, jsonGet primary_key "value" = none →
      db_delete_row i database table primary_key reg o =
        ⟨⟨false, "参数错误"⟩, none, reg⟩) := by
  refine ⟨?_, ?_, ?_, ?_, ?_⟩
  · intro pk ups h
    unfold db_update_row
    rw [hreg, h]
    simp [show "".isEmpty = true from rfl]
  · intro pk ups h
    unfold db_update_row
    rw [hreg, h]
    simp
  · intro pk ups h
    unfold db_update_row
    rw [hreg, h]
    simp
  · intro pk h
    unfold db_delete_row
    rw [hreg, h]
    simp [show "".isEmpty = true from rfl]
  · intro pk h
    unfold db_delete_row
    rw [hreg, h]
    simp

/-- Witness for C10: a primary key object with no column field. -/
theorem mutation_param_validation_witness :
    db_update_row "s1" "d" "t" (JsonVal.obj [] "") JsonVal.null regW oracleW =
      ⟨⟨false, "参数错误"⟩, none, regW⟩ ∧
    db_delete_row "s1" "d" "t" (JsonVal.obj [] "") regW oracleW =
      ⟨⟨false, "参数错误"⟩, none, regW⟩ :=
  ⟨(mutation_param_validation "s1" "d" "t" regW oracleW
      ⟨Engine.mysql, "s1", false⟩ rfl).1 (JsonVal.obj [] "") JsonVal.null rfl,
   (mutation_param_validation "s1" "d" "t" regW oracleW
      ⟨Engine.mysql, "s1", false⟩ rfl).2.2.2.1 (JsonVal.obj [] "") rfl⟩

/-! Read/write shape discipline of the query paths (C1). -/

/-- C1 (amended): for the pooled engines (MySQL/Postgres/SQLite) a
statement matching the engine's read-keyword list never carries an
affected-row count; a non-matching statement returns `some n` with empty
columns and rows when the driver executes it, and an error with no count
when it fails; SQL Server never reports an affected-row count at all; and
no result of any engine carries an affected-row count together with
columns or rows. -/
theorem affected_rows_discipline :
    (∀ sql fetch exec, isSelectMySql sql = true →
      (query_mysql fetch exec sql).affected_rows = none) ∧
    (∀ sql fetch exec, isSelectPostgres sql = true →
      (query_postgres fetch exec sql).affected_rows = none) ∧
    (∀ sql fetch exec, isSelectSqlite sql = true →
      (query_sqlite fetch exec sql).affected_rows = none) ∧
    (∀ sql fetch n, isSelectMySql sql = false →
      query_mysql fetch (.ok n) sql = ⟨[], [], none, some n⟩) ∧
    (∀ sql fetch n, isSelectPostgres sql = false →
      query_postgres fetch (.ok n) sql = ⟨[], [], none, some n⟩) ∧
    (∀ sql fetch n, isSelectSqlite sql = false →
      query_sqlite fetch (.ok n) sql = ⟨[], [], none, some n⟩) ∧
    (∀ sql fetch e, isSelectMySql sql = false →
      query_mysql fetch (.error e) sql = ⟨[], [], some e, none⟩) ∧
    (∀ sql fetch e, isSelectPostgres sql = false →
      query_postgres fetch (.error e) sql = ⟨[], [], some e, none⟩) ∧
    (∀ sql fetch e, isSelectSqlite sql = false →
      query_sqlite fetch (.error e) sql = ⟨[], [], some e, none⟩) ∧
    (∀ o sql, (query_sqlserver o sql).affected_rows = none) ∧
    (∀ sql fetch exec, ((query_mysql fetch exec sql).affected_rows).isSome = true →
      (query_mysql fetch exec sql).columns = [] ∧
      (query_mysql fetch exec sql).rows = []) ∧
    (∀ sql fetch exec, ((query_postgres fetch exec sql).affected_rows).isSome = true →
      (query_postgres fetch exec sql).columns = [] ∧
      (query_postgres fetch exec sql).rows = []) ∧
    (∀ sql fetch exec, ((query_sqlite fetch exec sql).affected_rows).isSome = true →
      (query_sqlite fetch exec sql).columns = [] ∧
      (query_sqlite fetch exec sql).rows = []) := by
  refine ⟨?_, ?_, ?_, ?_, ?_, ?_, ?_, ?_, ?_, ?_, ?_, ?_, ?_⟩
  · intro sql f e h
    unfold query_mysql
    rw [if_pos h]
    cases f with
    | ok rows => cases rows <;> rfl
    | error e2 => rfl
  · intro sql f e h
    unfold query_postgres
    rw [if_pos h]
    cases f with
    | ok rows => cases rows <;> rfl
    | error e2 => rfl
  · intro sql f e h
    unfold query_sqlite
    rw [if_pos h]
    cases f with
    | ok rows => cases rows <;> rfl
    | error e2 => rfl
  · intro sql f n h
    unfold query_mysql
    rw [if_neg (by simp [h])]
  · intro sql f n h
    unfold query_postgres
    rw [if_neg (by simp [h])]
  · intro sql f n h
    unfold query_sqlite
    rw [if_neg (by simp [h])]
  · intro sql f e h
    unfold query_mysql
    rw [if_neg (by simp [h])]
  · intro sql f e h
    unfold query_postgres
    rw [if_neg (by simp [h])]
  · intro sql f e h
    unfold query_sqlite
    rw [if_neg (by simp [h])]
  · intro o sql
    obtain ⟨tcp, client, rq⟩ := o
    cases tcp with
    | error e => rfl
    | ok u =>
      cases client with
      | error e => rfl
      | ok u2 =>
        cases rq with
        | error e => rfl
        | ok rs => rfl
  · intro sql f e h
    unfold query_mysql at *
    by_cases hs : isSelectMySql sql = true
    · rw [if_pos hs] at h ⊢
      cases f with
      | ok rows => cases rows <;> simp at h
      | error e2 => simp at h
    · rw [if_neg hs] at h ⊢
      cases e with
      | ok n => exact ⟨rfl, rfl⟩
      | error e2 => simp at h
  · intro sql f e h
    unfold query_postgres at *
    by_cases hs : isSelectPostgres sql = true
    · rw [if_pos hs] at h ⊢
      cases f with
      | ok rows => cases rows <;> simp at h
      | error e2 => simp at h
    · rw [if_neg hs] at h ⊢
      cases e with
      | ok n => exact ⟨rfl, rfl⟩
      | error e2 => simp at h
  · intro sql f e h
    unfold query_sqlite at *
    by_cases hs : isSelectSqlite sql = true
    · rw [if_pos hs] at h ⊢
      cases f with
      | ok rows => cases rows <;> simp at h
      | error e2 => simp at h
    · rw [if_neg hs] at h ⊢
      cases e with
      | ok n => exact ⟨rfl, rfl⟩
      | error e2 => simp at h

/-- Witness for C1 on a read and a write statement against MySQL. -/
theorem affected_rows_discipline_witness :
    (query_mysql (.ok []) (.ok 0) "SELECT 1").affected_rows = none ∧
    query_mysql (.ok []) (.ok 3) "DELETE FROM t" = ⟨[], [], none, some 3⟩ :=
  ⟨affected_rows_discipline.1 "SELECT 1" (.ok []) (.ok 0) rfl,
   affected_rows_discipline.2.2.2.1 "DELETE FROM t" (.ok []) 3 rfl⟩

/-- C1 counterexample: a SQL Server statement whose `simple_query` succeeds
with no result set — a write in the claim's classification — comes back
with no affected-row count and no error, where the claim requires
`affected_rows = some n`. -/
theorem sqlserver_write_counterexample :
    query_sqlserver ⟨.ok (), .ok (), .ok []⟩ "DELETE FROM t" =
      ⟨[], [], none, none⟩ :=
  rfl

/-! Cell decode order (C2). -/

/-- C2 (amended): the MySQL and Postgres decoders follow the claimed
priority order null → string → i64 → f64 → bool exactly; the SQLite
decoder is that order with the boolean attempt removed; the SQL Server
decoder tries string → i32 → i64 → f64 with SQL NULL falling through; and
on every engine a cell where every attempt fails degrades to null. -/
theorem cell_decode_order :
    (∀ c, decodeMySqlCell c = specOrderDecode c) ∧
    (∀ c, decodePgCell c = specOrderDecode c) ∧
    (∀ c, decodeSqliteCell c = specOrderDecode { c with get_bool := none }) ∧
    (∀ c : SqlxCell, c.get_string = none → c.get_i64 = none →
      c.get_f64 = none → c.get_bool = none →
      decodeMySqlCell c = JValue.null ∧ decodeSqliteCell c = JValue.null) ∧
    (∀ (c : TdsCell) (s : String), c.get_str = some (some s) →
      decodeTdsCell c = JValue.str s) ∧
    (∀ (c : TdsCell) (n : Int), c.get_str.join = none →
      c.get_i32 = some (some n) → decodeTdsCell c = JValue.int n) ∧
    (∀ (c : TdsCell) (n : Int), c.get_str.join = none →
      c.get_i32.join = none → c.get_i64 = some (some n) →
      decodeTdsCell c = JValue.int n) ∧
    (∀ (c : TdsCell) (f : F64), c.get_str.join = none →
      c.get_i32.join = none → c.get_i64.join = none →
      c.get_f64 = some (some f) → decodeTdsCell c = JValue.float f) ∧
    (∀ c : TdsCell, c.get_str.join = none → c.get_i32.join = none →
      c.get_i64.join = none → c.get_f64.join = none →
      decodeTdsCell c = JValue.null) := by
  refine ⟨fun c => rfl, fun c => rfl, ?_, ?_, ?_, ?_, ?_, ?_, ?_⟩
  · intro c
    obtain ⟨ro, nl, gs, gi, gf, gb⟩ := c
    cases ro <;> cases nl <;> cases gs <;> cases gi <;> cases gf <;> rfl
  · intro c h1 h2 h3 h4
    obtain ⟨ro, nl, gs, gi, gf, gb⟩ := c
    cases h1
    cases h2
    cases h3
    cases h4
    cases ro <;> cases nl <;> exact ⟨rfl, rfl⟩
  · intro c s h
    unfold decodeTdsCell
    rw [h]
    rfl
  · intro c n h1 h2
    unfold decodeTdsCell
    rw [h1, h2]
    rfl
  · intro c n h1 h2 h3
    unfold decodeTdsCell
    rw [h1, h2, h3]
    rfl
  · intro c f h1 h2 h3 h4
    unfold decodeTdsCell
    rw [h1, h2, h3, h4]
    rfl
  · intro c h1 h2 h3 h4
    unfold decodeTdsCell
    rw [h1, h2, h3, h4]

/-- Witness for C2 at concrete cells: an undecodable cell degrades to
null, a SQL Server string cell decodes as string. -/
theorem cell_decode_order_witness :
    (decodeMySqlCell ⟨true, false, none, none, none, none⟩ = JValue.null ∧
      decodeSqliteCell ⟨true, false, none, none, none, none⟩ = JValue.null) ∧
    decodeTdsCell ⟨some (some "x"), none, none, none⟩ = JValue.str "x" :=
  ⟨cell_decode_order.2.2.2.1 ⟨true, false, none, none, none, none⟩ rfl rfl rfl rfl,
   cell_decode_order.2.2.2.2.1 ⟨some (some "x"), none, none, none⟩ "x" rfl⟩

/-- C2 counterexample: a SQLite cell decodable only as boolean — the
claimed order yields the boolean, the code yields null because the SQLite
chain never attempts a boolean decode. -/
theorem sqlite_bool_decode_counterexample :
    decodeSqliteCell ⟨true, false, none, none, none, some true⟩ = JValue.null ∧
    specOrderDecode ⟨true, false, none, none, none, some true⟩ = JValue.bool true :=
  ⟨rfl, rfl⟩

/-! String lemmas for the statement classifiers. -/

theorem dropWhile_append_keep (p : Char → Bool) (c : Char) (hc : p c = false) :
    ∀ xs ys : List Char,
      List.dropWhile p (xs ++ c :: ys) = List.dropWhile p xs ++ c :: ys := by
  intro xs ys
  induction xs with
  | nil => simp [List.dropWhile_cons, hc]
  | cons x xt ih =>
    by_cases hx : p x = true
    · simp [List.dropWhile_cons, hx, ih]
    · simp [List.dropWhile_cons, hx]

theorem trimTrailing_keeps (l1 : List Char) (c : Char) (l2 : List Char)
    (hc : Char.isWhitespace c = false) :
    ∃ t, ((l1 ++ c :: l2).reverse.dropWhile Char.isWhitespace).reverse =
      l1 ++ c :: t := by
  refine ⟨(l2.reverse.dropWhile Char.isWhitespace).reverse, ?_⟩
  have h1 : (l1 ++ c :: l2).reverse = l2.reverse ++ c :: l1.reverse := by
    simp [List.reverse_append]
  rw [h1, dropWhile_append_keep Char.isWhitespace c hc]
  simp [List.reverse_append]

theorem rustTrim_keeps (s : String) (l1 : List Char) (c : Char) (l2 : List Char)
    (hd : s.data = l1 ++ c :: l2)
    (hhead : Char.isWhitespace ((l1 ++ c :: l2).headD c) = false)
    (hc : Char.isWhitespace c = false) :
    ∃ t, (rustTrim s).data = l1 ++ c :: t := by
  unfold rustTrim
  rw [hd]
  have hlead : List.dropWhile Char.isWhitespace (l1 ++ c :: l2) = l1 ++ c :: l2 := by
    cases l1 with
    | nil =>
      rw [List.nil_append, List.dropWhile_cons, if_neg (by simp [hc])]
    | cons x xt =>
      have hx : Char.isWhitespace x = false := by simpa using hhead
      rw [List.cons_append, List.dropWhile_cons, if_neg (by simp [hx])]
  rw [hlead]
  exact trimTrailing_keeps l1 c l2 hc

theorem not_startsWith_head (c : Char) (t : List Char) (d : Char) (u : List Char)
    (h : (d == c) = false) : rustStartsWith ⟨c :: t⟩ ⟨d :: u⟩ = false := by
  unfold rustStartsWith
  simp [List.isPrefixOf, h]

/-- A trimmed-and-uppercased string whose first character is not among the
initials of the MySQL read keywords fails the MySQL classifier. -/
theorem isSelectMySql_false_of_head (s : String) (c : Char) (t : List Char)
    (hd : s.data = c :: t) (hws : Char.isWhitespace c = false)
    (h1 : ('S' == c.toUpper) = false) (h2 : ('D' == c.toUpper) = false)
    (h3 : ('E' == c.toUpper) = false) : isSelectMySql s = false := by
  obtain ⟨t2, ht⟩ := rustTrim_keeps s [] c t hd (by simpa using hws) hws
  unfold isSelectMySql rustToUpper
  rw [ht]
  simp only [List.nil_append, List.map_cons]
  rw [show rustStartsWith ⟨c.toUpper :: List.map Char.toUpper t2⟩ "SELECT" =
        rustStartsWith ⟨c.toUpper :: List.map Char.toUpper t2⟩ ⟨'S' :: "ELECT".data⟩
      from rfl,
    not_startsWith_head _ _ _ _ h1,
    show rustStartsWith ⟨c.toUpper :: List.map Char.toUpper t2⟩ "SHOW" =
        rustStartsWith ⟨c.toUpper :: List.map Char.toUpper t2⟩ ⟨'S' :: "HOW".data⟩
      from rfl,
    not_startsWith_head _ _ _ _ h1,
    show rustStartsWith ⟨c.toUpper :: List.map Char.toUpper t2⟩ "DESCRIBE" =
        rustStartsWith ⟨c.toUpper :: List.map Char.toUpper t2⟩ ⟨'D' :: "ESCRIBE".data⟩
      from rfl,
    not_startsWith_head _ _ _ _ h2,
    show rustStartsWith ⟨c.toUpper :: List.map Char.toUpper t2⟩ "EXPLAIN" =
        rustStartsWith ⟨c.toUpper :: List.map Char.toUpper t2⟩ ⟨'E' :: "XPLAIN".data⟩
      from rfl,
    not_startsWith_head _ _ _ _ h3]
  rfl

/-- The Postgres analogue: SELECT/SHOW/EXPLAIN. -/
theorem isSelectPostgres_false_of_head (s : String) (c : Char) (t : List Char)
    (hd : s.data = c :: t) (hws : Char.isWhitespace c = false)
    (h1 : ('S' == c.toUpper) = false) (h2 : ('E' == c.toUpper) = false) :
    isSelectPostgres s = false := by
  obtain ⟨t2, ht⟩ := rustTrim_keeps s [] c t hd (by simpa using hws) hws
  unfold isSelectPostgres rustToUpper
  rw [ht]
  simp only [List.nil_append, List.map_cons]
  rw [show rustStartsWith ⟨c.toUpper :: List.map Char.toUpper t2⟩ "SELECT" =
        rustStartsWith ⟨c.toUpper :: List.map Char.toUpper t2⟩ ⟨'S' :: "ELECT".data⟩
      from rfl,
    not_startsWith_head _ _ _ _ h1,
    show rustStartsWith ⟨c.toUpper :: List.map Char.toUpper t2⟩ "SHOW" =
        rustStartsWith ⟨c.toUpper :: List.map Char.toUpper t2⟩ ⟨'S' :: "HOW".data⟩
      from rfl,
    not_startsWith_head _ _ _ _ h1,
    show rustStartsWith ⟨c.toUpper :: List.map Char.toUpper t2⟩ "EXPLAIN" =
        rustStartsWith ⟨c.toUpper :: List.map Char.toUpper t2⟩ ⟨'E' :: "XPLAIN".data⟩
      from rfl,
    not_startsWith_head _ _ _ _ h2]
  rfl

/-- The SQLite analogue: SELECT/PRAGMA. -/
theorem isSelectSqlite_false_of_head (s : String) (c : Char) (t : List Char)
    (hd : s.data = c :: t) (hws : Char.isWhitespace c = false)
    (h1 : ('S' == c.toUpper) = false) (h2 : ('P' == c.toUpper) = false) :
    isSelectSqlite s = false := by
  obtain ⟨t2, ht⟩ := rustTrim_keeps s [] c t hd (by simpa using hws) hws
  unfold isSelectSqlite rustToUpper
  rw [ht]
  simp only [List.nil_append, List.map_cons]
  rw [show rustStartsWith ⟨c.toUpper :: List.map Char.toUpper t2⟩ "SELECT" =
        rustStartsWith ⟨c.toUpper :: List.map Char.toUpper t2⟩ ⟨'S' :: "ELECT".data⟩
      from rfl,
    not_startsWith_head _ _ _ _ h1,
    show rustStartsWith ⟨c.toUpper :: List.map Char.toUpper t2⟩ "PRAGMA" =
        rustStartsWith ⟨c.toUpper :: List.map Char.toUpper t2⟩ ⟨'P' :: "RAGMA".data⟩
      from rfl,
    not_startsWith_head _ _ _ _ h2]
  rfl

/-- A string beginning with the exact characters SELECT satisfies all three
pooled-engine classifiers. -/
theorem isSelect_true_of_SELECT (s : String) (t : List Char)
    (hd : s.data = 'S' :: 'E' :: 'L' :: 'E' :: 'C' :: 'T' :: t) :
    isSelectMySql s = true ∧ isSelectPostgres s = true ∧
      isSelectSqlite s = true := by
  obtain ⟨t2, ht⟩ := rustTrim_keeps s ['S', 'E', 'L', 'E', 'C'] 'T' t hd
    (by simp) (by simp)
  have hu : (rustToUpper (rustTrim s)).data =
      'S' :: 'E' :: 'L' :: 'E' :: 'C' :: 'T' :: List.map Char.toUpper t2 := by
    unfold rustToUpper
    rw [ht]
    rfl
  have hsw : rustStartsWith (rustToUpper (rustTrim s)) "SELECT" = true := by
    unfold rustStartsWith
    rw [hu, show "SELECT".data = ['S', 'E', 'L', 'E', 'C', 'T'] from rfl]
    exact List.isPrefixOf_iff_prefix.mpr ⟨List.map Char.toUpper t2, rfl⟩
  refine ⟨?_, ?_, ?_⟩
  · unfold isSelectMySql
    simp [hsw]
  · unfold isSelectPostgres
    simp [hsw]
  · unfold isSelectSqlite
    simp [hsw]

theorem head_of_append_left (s x : String) (c : Char)
    (h : ∃ r, s.data = c :: r) : ∃ r, (s ++ x).data = c :: r := by
  obtain ⟨r, hr⟩ := h
  exact ⟨r ++ x.data, by rw [String.data_append, hr]; rfl⟩

/-! Escaping lemmas for C5. -/

theorem escChars_count (l : List Char) :
    (escChars l).count sq = 2 * l.count sq := by
  induction l with
  | nil => rfl
  | cons c cs ih =>
    by_cases hc : c = sq
    · subst hc
      simp only [escChars, if_pos rfl, List.count_cons, ih, beq_self_eq_true,
        if_true]
      omega
    · simp only [escChars, if_neg hc, List.count_cons, ih]
      have : (c == sq) = false := by simpa using hc
      simp [this]

theorem sqlUnquote_escChars (l : List Char) : sqlUnquote (escChars l) = l := by
  induction l with
  | nil => rfl
  | cons c cs ih =>
    by_cases hc : c = sq
    · subst hc
      rw [show escChars (sq :: cs) = sq :: sq :: escChars cs from by
        simp [escChars]]
      rw [show sqlUnquote (sq :: sq :: escChars cs) =
          if sq = sq then (if sq = sq then sq :: sqlUnquote (escChars cs) else [])
          else sq :: sqlUnquote (sq :: escChars cs) from rfl]
      simp [ih]
    · simp only [escChars, if_neg hc]
      cases he : escChars cs with
      | nil =>
        have hnil : cs = [] := by
          cases cs with
          | nil => rfl
          | cons d ds =>
            by_cases hd : d = sq <;> simp [escChars, hd] at he
        subst hnil
        simp [sqlUnquote, hc]
      | cons d ds =>
        rw [show sqlUnquote (c :: d :: ds) =
            if c = sq then (if d = sq then sq :: sqlUnquote ds else [])
            else c :: sqlUnquote (d :: ds) from rfl]
        rw [if_neg hc, ← he, ih]

theorem replChar_self (pat : Char) (l : List Char) : replChar pat [pat] l = l := by
  induction l with
  | nil => rfl
  | cons c cs ih =>
    by_cases hc : c = pat
    · subst hc
      simp [replChar, ih]
    · simp [replChar, hc, ih]

theorem replChar_id (pat : Char) (rep : List Char) (l : List Char)
    (h : pat ∉ l) : replChar pat rep l = l := by
  induction l with
  | nil => rfl
  | cons c cs ih =>
    rw [List.mem_cons, not_or] at h
    have hc : ¬ c = pat := fun he => h.1 (he ▸ rfl)
    simp [replChar, hc, ih h.2]

theorem replChar_append (pat : Char) (rep : List Char) (a b : List Char) :
    replChar pat rep (a ++ b) = replChar pat rep a ++ replChar pat rep b := by
  induction a with
  | nil => rfl
  | cons c cs ih =>
    by_cases hc : c = pat
    · simp [replChar, hc, ih]
    · simp [replChar, hc, ih]

theorem escChars_no_new (x : Char) (l : List Char) (hx : x ∉ l) (hxs : x ≠ sq) :
    x ∉ escChars l := by
  induction l with
  | nil => simp [escChars]
  | cons c cs ih =>
    rw [List.mem_cons, not_or] at hx
    by_cases hc : c = sq
    · subst hc
      rw [show escChars (sq :: cs) = sq :: sq :: escChars cs from by
        simp [escChars]]
      simp only [List.mem_cons, not_or]
      exact ⟨hxs, hxs, ih hx.2⟩
    · simp only [escChars, if_neg hc, List.mem_cons, not_or]
      exact ⟨hx.1, ih hx.2⟩

theorem setClause_single (col : String) (v : JsonVal) :
    setClause [(col, v)] = "`" ++ col ++ "` = " ++ updateLit v := by
  unfold setClause
  rfl

/-! Head shapes of the mutation SQL (routing through the effect path). -/

theorem updateSqlMySql_head (db t pk : String) (v : JsonVal)
    (ups : List (String × JsonVal)) :
    ∃ r, (updateSqlMySql db t pk v ups).data = 'U' :: r := by
  unfold updateSqlMySql
  repeat apply head_of_append_left
  exact ⟨_, rfl⟩

theorem updateSqlPostgres_head (t pk : String) (v : JsonVal)
    (ups : List (String × JsonVal)) :
    ∃ r, (updateSqlPostgres t pk v ups).data = 'U' :: r := by
  unfold updateSqlPostgres
  repeat apply head_of_append_left
  exact ⟨_, rfl⟩

theorem updateSqlSqlite_head (t pk : String) (v : JsonVal)
    (ups : List (String × JsonVal)) :
    ∃ r, (updateSqlSqlite t pk v ups).data = 'U' :: r := by
  unfold updateSqlSqlite
  repeat apply head_of_append_left
  exact ⟨_, rfl⟩

theorem deleteSqlMySql_head (db t pk : String) (v : JsonVal) :
    ∃ r, (deleteSqlFor .mysql db t pk v).data = 'U' :: r := by
  unfold deleteSqlFor
  repeat apply head_of_append_left
  exact ⟨_, rfl⟩

theorem deleteSqlPostgres_head (db t pk : String) (v : JsonVal) :
    ∃ r, (deleteSqlFor .postgres db t pk v).data = 'D' :: r := by
  unfold deleteSqlFor
  repeat apply head_of_append_left
  exact ⟨_, rfl⟩

theorem deleteSqlSqlite_head (db t pk : String) (v : JsonVal) :
    ∃ r, (deleteSqlFor .sqlite db t pk v).data = 'D' :: r := by
  unfold deleteSqlFor
  repeat apply head_of_append_left
  exact ⟨_, rfl⟩

/-- C5 (amended): string values are embedded as quoted literals with every
single quote doubled (and the SQL literal reading recovers the original
string — the O-Brien round trip); numbers and booleans are embedded in
native literal form; the generated UPDATE/DELETE statements fail every
read classifier, so the pooled engines route them through the effect path.
However, the engine-specific identifier rewrite also rewrites backticks
inside value literals (Postgres/SQLite: backtick → double quote, SQL
Server: backtick → bracket), so a value is embedded verbatim only when it
contains no backtick; the MySQL and bracket rewrites are identities. -/
theorem mutation_escaping :
    (∀ s : String, (sqlEscape s).data.count sq = 2 * s.data.count sq) ∧
    (∀ s : String, sqlUnquote (sqlEscape s).data = s.data) ∧
    (∀ s : String, updateLit (JsonVal.str s) = sqStr ++ sqlEscape s ++ sqStr ∧
      pkLit (JsonVal.str s) = sqStr ++ sqlEscape s ++ sqStr) ∧
    (∀ n : String, updateLit (JsonVal.num n) = n ∧ pkLit (JsonVal.num n) = n) ∧
    (updateLit (JsonVal.bool true) = "1" ∧ updateLit (JsonVal.bool false) = "0") ∧
    (∀ s : String, replStr backtick [backtick] s = s) ∧
    (∀ s : String, replStr ']' [']'] s = s) ∧
    (∀ s : String, backtick ∉ s.data → replStr backtick ['"'] s = s) ∧
    (∀ col s : String, backtick ∉ col.data → backtick ∉ s.data →
      replStr backtick ['"'] (setClause [(col, JsonVal.str s)]) =
        "\"" ++ col ++ "\" = " ++ sqStr ++ sqlEscape s ++ sqStr) ∧
    (∀ db t pk v ups, isSelectMySql (updateSqlMySql db t pk v ups) = false) ∧
    (∀ t pk v ups, isSelectPostgres (updateSqlPostgres t pk v ups) = false) ∧
    (∀ t pk v ups, isSelectSqlite (updateSqlSqlite t pk v ups) = false) ∧
    (∀ db t pk v, isSelectMySql (deleteSqlFor .mysql db t pk v) = false) ∧
    (∀ db t pk v, isSelectPostgres (deleteSqlFor .postgres db t pk v) = false) ∧
    (∀ db t pk v, isSelectSqlite (deleteSqlFor .sqlite db t pk v) = false) := by
  refine ⟨fun s => escChars_count s.data, fun s => sqlUnquote_escChars s.data,
    fun s => ⟨rfl, rfl⟩, fun n => ⟨rfl, rfl⟩, ⟨rfl, rfl⟩,
    fun s => ?_, fun s => ?_, fun s h => ?_, ?_, ?_, ?_, ?_, ?_, ?_, ?_⟩
  · unfold replStr
    rw [replChar_self]
  · unfold replStr
    rw [replChar_self]
  · unfold replStr
    rw [replChar_id _ _ _ h]
  · intro col s hcol hs
    have hesc : backtick ∉ (sqlEscape s).data :=
      escChars_no_new backtick s.data hs (by decide)
    rw [setClause_single]
    unfold replStr
    have hdata : replChar backtick ['"']
        ("`" ++ col ++ "` = " ++ updateLit (JsonVal.str s)).data =
        ("\"" ++ col ++ "\" = " ++ sqStr ++ sqlEscape s ++ sqStr).data := by
      rw [show updateLit (JsonVal.str s) = sqStr ++ sqlEscape s ++ sqStr from rfl]
      simp only [String.data_append]
      simp only [replChar_append]
      rw [replChar_id _ _ _ hcol, replChar_id _ _ _ hesc,
        show replChar backtick ['"'] "`".data = "\"".data from rfl,
        show replChar backtick ['"'] "` = ".data = "\" = ".data from rfl,
        show replChar backtick ['"'] sqStr.data = sqStr.data from rfl]
      simp only [List.append_assoc]
    exact congrArg String.mk hdata
  · intro db t pk v ups
    obtain ⟨r, hr⟩ := updateSqlMySql_head db t pk v ups
    exact isSelectMySql_false_of_head _ _ _ hr rfl rfl rfl rfl
  · intro t pk v ups
    obtain ⟨r, hr⟩ := updateSqlPostgres_head t pk v ups
    exact isSelectPostgres_false_of_head _ _ _ hr rfl rfl rfl
  · intro t pk v ups
    obtain ⟨r, hr⟩ := updateSqlSqlite_head t pk v ups
    exact isSelectSqlite_false_of_head _ _ _ hr rfl rfl rfl
  · intro db t pk v
    obtain ⟨r, hr⟩ := deleteSqlMySql_head db t pk v
    exact isSelectMySql_false_of_head _ _ _ hr rfl rfl rfl rfl
  · intro db t pk v
    obtain ⟨r, hr⟩ := deleteSqlPostgres_head db t pk v
    exact isSelectPostgres_false_of_head _ _ _ hr rfl rfl rfl
  · intro db t pk v
    obtain ⟨r, hr⟩ := deleteSqlSqlite_head db t pk v
    exact isSelectSqlite_false_of_head _ _ _ hr rfl rfl rfl

/-- The spec's example value, built without a quote character literal. -/
def obrien : String := "O" ++ sqStr ++ "Brien"

/-- Witness for C5: the O-Brien round trip, the rewritten single-column
SET clause embedding its escaped literal verbatim, and routing of its
UPDATE down the Postgres effect path. -/
theorem mutation_escaping_witness :
    sqlUnquote (sqlEscape obrien).data = obrien.data ∧
    replStr backtick ['"'] (setClause [("name", JsonVal.str obrien)]) =
      "\"" ++ "name" ++ "\" = " ++ sqStr ++ sqlEscape obrien ++ sqStr ∧
    isSelectPostgres (updateSqlPostgres "t" "id" (JsonVal.num "1")
      [("name", JsonVal.str obrien)]) = false :=
  ⟨mutation_escaping.2.1 obrien,
   mutation_escaping.2.2.2.2.2.2.2.2.1 "name" obrien (by decide) (by decide),
   mutation_escaping.2.2.2.2.2.2.2.2.2.2.1 "t" "id" (JsonVal.num "1")
     [("name", JsonVal.str obrien)]⟩

/-- A value containing a backtick. -/
def backtickVal : String := "a" ++ String.singleton backtick ++ "b"

/-- C5 counterexample: on Postgres, a string value containing a backtick is
NOT embedded as its escaped self — the identifier rewrite turns the
backtick inside the value literal into a double quote, so the generated
SQL contains no backtick at all and carries a different value. -/
theorem backtick_rewrite_counterexample :
    backtick ∈ backtickVal.data ∧
    backtick ∉ (updateSqlPostgres "t" "id" (JsonVal.num "1")
      [("c", JsonVal.str backtickVal)]).data ∧
    updateSqlPostgres "t" "id" (JsonVal.num "1") [("c", JsonVal.str backtickVal)] =
      "UPDATE \"t\" SET \"c\" = " ++ sqStr ++ "a\"b" ++ sqStr ++
        " WHERE \"id\" = 1" :=
  ⟨by decide, by decide, by decide⟩

/-! Paging (C4). -/

theorem prefix_of_append_left (s x : String) (l : List Char)
    (h : ∃ r, s.data = l ++ r) : ∃ r, (s ++ x).data = l ++ r := by
  obtain ⟨r, hr⟩ := h
  exact ⟨r ++ x.data, by rw [String.data_append, hr, List.append_assoc]⟩

theorem pageSqlMySql_select (table : String) (ps off : Int) :
    isSelectMySql (pageSqlMySql table ps off) = true := by
  have hd : ∃ r, (pageSqlMySql table ps off).data =
      ['S', 'E', 'L', 'E', 'C', 'T'] ++ r := by
    unfold pageSqlMySql
    repeat apply prefix_of_append_left
    exact ⟨_, rfl⟩
  obtain ⟨r, hr⟩ := hd
  exact (isSelect_true_of_SELECT _ r hr).1

/-- Decode one pooled-engine row against a fixed column count, the way the
MySQL read path decodes every row against the first row's metadata. -/
def decodeRowWith (ncols : Nat) (row : SqlxRow) : List JValue :=
  (List.range ncols).map (fun i => decodeMySqlAt row i)

/-- The Postgres analogue of `decodeRowWith`. -/
def decodeRowWithPg (ncols : Nat) (row : SqlxRow) : List JValue :=
  (List.range ncols).map (fun i => decodePgAt row i)

/-- The SQLite analogue of `decodeRowWith`. -/
def decodeRowWithSqlite (ncols : Nat) (row : SqlxRow) : List JValue :=
  (List.range ncols).map (fun i => decodeSqliteAt row i)

/-- Decode of one SQL Server row, as the result accumulator performs it. -/
def decodeTdsRow (row : TdsRow) : List JValue :=
  row.cells.map decodeTdsCell

theorem pageSqlPostgres_select (table : String) (ps off : Int) :
    isSelectPostgres (pageSqlPostgres table ps off) = true := by
  have hd : ∃ r, (pageSqlPostgres table ps off).data =
      ['S', 'E', 'L', 'E', 'C', 'T'] ++ r := by
    unfold pageSqlPostgres
    repeat apply prefix_of_append_left
    exact ⟨_, rfl⟩
  obtain ⟨r, hr⟩ := hd
  exact (isSelect_true_of_SELECT _ r hr).2.1

theorem pageSqlSqlite_select (table : String) (ps off : Int) :
    isSelectSqlite (pageSqlSqlite table ps off) = true := by
  have hd : ∃ r, (pageSqlSqlite table ps off).data =
      ['S', 'E', 'L', 'E', 'C', 'T'] ++ r := by
    unfold pageSqlSqlite
    repeat apply prefix_of_append_left
    exact ⟨_, rfl⟩
  obtain ⟨r, hr⟩ := hd
  exact (isSelect_true_of_SELECT _ r hr).2.2

theorem sqlWindow_map {α β : Type} (f : α → β) (t : List α) (l o : Int) :
    (sqlWindow t l o).map f = sqlWindow (t.map f) l o := by
  unfold sqlWindow
  rw [List.map_take, List.map_drop]

theorem sqlWindow_subset {α : Type} (t : List α) (l o : Int) :
    sqlWindow t l o ⊆ t :=
  fun _ hx => List.drop_subset _ _ (List.take_subset _ _ hx)

theorem query_mysql_read_rows (sql : String) (hsql : isSelectMySql sql = true)
    (w : List SqlxRow) (cols : List String)
    (hcols : ∀ r ∈ w, r.colNames = cols) (exec : Except String Int) :
    (query_mysql (.ok w) exec sql).rows = w.map (decodeRowWith cols.length) := by
  unfold query_mysql
  rw [if_pos hsql]
  cases w with
  | nil => rfl
  | cons r rs =>
    have hr : r.colNames = cols := hcols r (List.mem_cons_self r rs)
    simp only []
    rw [hr]
    rfl

theorem query_postgres_read_rows (sql : String)
    (hsql : isSelectPostgres sql = true) (w : List SqlxRow) (cols : List String)
    (hcols : ∀ r ∈ w, r.colNames = cols) (exec : Except String Int) :
    (query_postgres (.ok w) exec sql).rows = w.map (decodeRowWithPg cols.length) := by
  unfold query_postgres
  rw [if_pos hsql]
  cases w with
  | nil => rfl
  | cons r rs =>
    have hr : r.colNames = cols := hcols r (List.mem_cons_self r rs)
    simp only []
    rw [hr]
    rfl

theorem query_sqlite_read_rows (sql : String)
    (hsql : isSelectSqlite sql = true) (w : List SqlxRow) (cols : List String)
    (hcols : ∀ r ∈ w, r.colNames = cols) (exec : Except String Int) :
    (query_sqlite (.ok w) exec sql).rows = w.map (decodeRowWithSqlite cols.length) := by
  unfold query_sqlite
  rw [if_pos hsql]
  cases w with
  | nil => rfl
  | cons r rs =>
    have hr : r.colNames = cols := hcols r (List.mem_cons_self r rs)
    simp only []
    rw [hr]
    rfl

theorem ssAccum_rows (rows : List TdsRow) :
    ∀ (cols : List String) (acc : List (List JValue)),
      (ssAccum rows cols acc).2 = acc ++ rows.map decodeTdsRow := by
  induction rows with
  | nil => intro cols acc; simp [ssAccum]
  | cons r rs ih =>
    intro cols acc
    simp only [ssAccum, List.map_cons]
    rw [ih]
    simp [decodeTdsRow]

/-- C4: `db_get_table_data` defaults page to 1 and page_size to 100 when
omitted, computes the window offset as (page-1)*page_size, reports the
exact COUNT(*) as the total, and — under the engine's native LIMIT/OFFSET
(or OFFSET/FETCH) windowing — returns exactly the decoded rows
[offset, offset+page_size) of the table in natural order, for all four
engines. -/
theorem table_page_window :
    (∀ (i database table : String) (reg : Registry) (info : ConnInfo)
        (cols : List String) (tableRows : List SqlxRow)
        (pageOpt pageSizeOpt : Option Int) (colsMeta : List ColumnInfo)
        (cqo : QueryOracle),
      lookupReg reg i = some info → info.connection = .mysql →
      (∀ r ∈ tableRows, r.colNames = cols) →
      1 ≤ pageOpt.getD 1 → 0 ≤ pageSizeOpt.getD 100 →
      db_get_table_data i database table pageOpt pageSizeOpt reg
        ⟨colsMeta, .ok (tableRows.length : Int),
          ⟨.ok (sqlWindow tableRows (pageSizeOpt.getD 100)
              ((pageOpt.getD 1 - 1) * pageSizeOpt.getD 100)),
            .ok 0, ⟨.ok (), .ok (), .ok []⟩⟩, cqo⟩ =
        ⟨colsMeta,
          sqlWindow (tableRows.map (decodeRowWith cols.length))
            (pageSizeOpt.getD 100) ((pageOpt.getD 1 - 1) * pageSizeOpt.getD 100),
          (tableRows.length : Int), pageOpt.getD 1, pageSizeOpt.getD 100⟩) ∧
    (∀ (i database table : String) (reg : Registry) (info : ConnInfo)
        (cols : List String) (tableRows : List SqlxRow)
        (pageOpt pageSizeOpt : Option Int) (colsMeta : List ColumnInfo)
        (cqo : QueryOracle),
      lookupReg reg i = some info → info.connection = .postgres →
      (∀ r ∈ tableRows, r.colNames = cols) →
      1 ≤ pageOpt.getD 1 → 0 ≤ pageSizeOpt.getD 100 →
      db_get_table_data i database table pageOpt pageSizeOpt reg
        ⟨colsMeta, .ok (tableRows.length : Int),
          ⟨.ok (sqlWindow tableRows (pageSizeOpt.getD 100)
              ((pageOpt.getD 1 - 1) * pageSizeOpt.getD 100)),
            .ok 0, ⟨.ok (), .ok (), .ok []⟩⟩, cqo⟩ =
        ⟨colsMeta,
          sqlWindow (tableRows.map (decodeRowWithPg cols.length))
            (pageSizeOpt.getD 100) ((pageOpt.getD 1 - 1) * pageSizeOpt.getD 100),
          (tableRows.length : Int), pageOpt.getD 1, pageSizeOpt.getD 100⟩) ∧
    (∀ (i database table : String) (reg : Registry) (info : ConnInfo)
        (cols : List String) (tableRows : List SqlxRow)
        (pageOpt pageSizeOpt : Option Int) (colsMeta : List ColumnInfo)
        (cqo : QueryOracle),
      lookupReg reg i = some info → info.connection = .sqlite →
      (∀ r ∈ tableRows, r.colNames = cols) →
      1 ≤ pageOpt.getD 1 → 0 ≤ pageSizeOpt.getD 100 →
      db_get_table_data i database table pageOpt pageSizeOpt reg
        ⟨colsMeta, .ok (tableRows.length : Int),
          ⟨.ok (sqlWindow tableRows (pageSizeOpt.getD 100)
              ((pageOpt.getD 1 - 1) * pageSizeOpt.getD 100)),
            .ok 0, ⟨.ok (), .ok (), .ok []⟩⟩, cqo⟩ =
        ⟨colsMeta,
          sqlWindow (tableRows.map (decodeRowWithSqlite cols.length))
            (pageSizeOpt.getD 100) ((pageOpt.getD 1 - 1) * pageSizeOpt.getD 100),
          (tableRows.length : Int), pageOpt.getD 1, pageSizeOpt.getD 100⟩) ∧
    (∀ (i database table cname : String) (reg : Registry) (info : ConnInfo)
        (tdsRows : List TdsRow) (pageOpt pageSizeOpt : Option Int)
        (colsMeta : List ColumnInfo),
      lookupReg reg i = some info → info.connection = .sqlserver →
      1 ≤ pageOpt.getD 1 → 0 ≤ pageSizeOpt.getD 100 →
      db_get_table_data i database table pageOpt pageSizeOpt reg
        ⟨colsMeta, .ok 0,
          ⟨.ok [], .ok 0, ⟨.ok (), .ok (),
            .ok [sqlWindow tdsRows (pageSizeOpt.getD 100)
              ((pageOpt.getD 1 - 1) * pageSizeOpt.getD 100)]⟩⟩,
          ⟨.ok [], .ok 0, ⟨.ok (), .ok (),
            .ok [[⟨[cname],
              [⟨none, some (some (tdsRows.length : Int)), none, none⟩]⟩]]⟩⟩⟩ =
        ⟨colsMeta,
          sqlWindow (tdsRows.map decodeTdsRow)
            (pageSizeOpt.getD 100) ((pageOpt.getD 1 - 1) * pageSizeOpt.getD 100),
          (tdsRows.length : Int), pageOpt.getD 1, pageSizeOpt.getD 100⟩) ∧
    (∀ p : Option Int, p = none → p.getD 1 = 1) ∧
    (∀ p : Option Int, p = none → p.getD 100 = 100) := by
  refine ⟨?_, ?_, ?_, ?_, fun p h => by rw [h]; rfl, fun p h => by rw [h]; rfl⟩
  · intro i database table reg info cols tableRows pageOpt pageSizeOpt colsMeta
      cqo hreg heng hcols _hpage _hps
    obtain ⟨conn, cid, ht⟩ := info
    cases heng
    have hwcols : ∀ r ∈ sqlWindow tableRows (pageSizeOpt.getD 100)
        ((pageOpt.getD 1 - 1) * pageSizeOpt.getD 100), r.colNames = cols :=
      fun r hr => hcols r (sqlWindow_subset tableRows _ _ hr)
    unfold db_get_table_data
    rw [hreg]
    unfold db_query
    rw [hreg]
    have hq := query_mysql_read_rows
      (pageSqlMySql table (pageSizeOpt.getD 100)
        ((pageOpt.getD 1 - 1) * pageSizeOpt.getD 100))
      (pageSqlMySql_select table _ _)
      (sqlWindow tableRows (pageSizeOpt.getD 100)
        ((pageOpt.getD 1 - 1) * pageSizeOpt.getD 100))
      cols hwcols (.ok 0)
    simp only []
    rw [hq, sqlWindow_map]
  · intro i database table reg info cols tableRows pageOpt pageSizeOpt colsMeta
      cqo hreg heng hcols _hpage _hps
    obtain ⟨conn, cid, ht⟩ := info
    cases heng
    have hwcols : ∀ r ∈ sqlWindow tableRows (pageSizeOpt.getD 100)
        ((pageOpt.getD 1 - 1) * pageSizeOpt.getD 100), r.colNames = cols :=
      fun r hr => hcols r (sqlWindow_subset tableRows _ _ hr)
    unfold db_get_table_data
    rw [hreg]
    unfold db_query
    rw [hreg]
    have hq := query_postgres_read_rows
      (pageSqlPostgres table (pageSizeOpt.getD 100)
        ((pageOpt.getD 1 - 1) * pageSizeOpt.getD 100))
      (pageSqlPostgres_select table _ _)
      (sqlWindow tableRows (pageSizeOpt.getD 100)
        ((pageOpt.getD 1 - 1) * pageSizeOpt.getD 100))
      cols hwcols (.ok 0)
    simp only []
    rw [hq, sqlWindow_map]
  · intro i database table reg info cols tableRows pageOpt pageSizeOpt colsMeta
      cqo hreg heng hcols _hpage _hps
    obtain ⟨conn, cid, ht⟩ := info
    cases heng
    have hwcols : ∀ r ∈ sqlWindow tableRows (pageSizeOpt.getD 100)
        ((pageOpt.getD 1 - 1) * pageSizeOpt.getD 100), r.colNames = cols :=
      fun r hr => hcols r (sqlWindow_subset tableRows _ _ hr)
    unfold db_get_table_data
    rw [hreg]
    unfold db_query
    rw [hreg]
    have hq := query_sqlite_read_rows
      (pageSqlSqlite table (pageSizeOpt.getD 100)
        ((pageOpt.getD 1 - 1) * pageSizeOpt.getD 100))
      (pageSqlSqlite_select table _ _)
      (sqlWindow tableRows (pageSizeOpt.getD 100)
        ((pageOpt.getD 1 - 1) * pageSizeOpt.getD 100))
      cols hwcols (.ok 0)
    simp only []
    rw [hq, sqlWindow_map]
  · intro i database table cname reg info tdsRows pageOpt pageSizeOpt colsMeta
      hreg heng _hpage _hps
    obtain ⟨conn, cid, ht⟩ := info
    cases heng
    have hq : (query_sqlserver ⟨.ok (), .ok (),
        .ok [sqlWindow tdsRows (pageSizeOpt.getD 100)
          ((pageOpt.getD 1 - 1) * pageSizeOpt.getD 100)]⟩
        (pageSqlSqlServer database table (pageSizeOpt.getD 100)
          ((pageOpt.getD 1 - 1) * pageSizeOpt.getD 100))).rows =
        sqlWindow (tdsRows.map decodeTdsRow) (pageSizeOpt.getD 100)
          ((pageOpt.getD 1 - 1) * pageSizeOpt.getD 100) := by
      show (ssAccum (sqlWindow tdsRows (pageSizeOpt.getD 100)
          ((pageOpt.getD 1 - 1) * pageSizeOpt.getD 100) ++ []) [] []).2 = _
      rw [List.append_nil, ssAccum_rows, List.nil_append, sqlWindow_map]
    unfold db_get_table_data
    rw [hreg]
    unfold db_query
    rw [hreg]
    unfold query_sqlserver
    simp only []
    rw [show (ssAccum ((sqlWindow tdsRows (pageSizeOpt.getD 100)
        ((pageOpt.getD 1 - 1) * pageSizeOpt.getD 100) :: []).flatten) [] []).2 =
        (query_sqlserver ⟨.ok (), .ok (),
          .ok [sqlWindow tdsRows (pageSizeOpt.getD 100)
            ((pageOpt.getD 1 - 1) * pageSizeOpt.getD 100)]⟩
          (pageSqlSqlServer database table (pageSizeOpt.getD 100)
            ((pageOpt.getD 1 - 1) * pageSizeOpt.getD 100))).rows from rfl, hq]
    rfl

/-- One driver row holding the integer `k` in a single column `v`. -/
def sampleRow (k : Nat) : SqlxRow :=
  ⟨["v"], [⟨true, false, none, some (k : Int), none, none⟩]⟩

/-- A 25-row table in natural order. -/
def table25 : List SqlxRow := (List.range 25).map sampleRow

/-- One SQL Server driver row holding the integer `k` in a column `v`. -/
def sampleTdsRow (k : Nat) : TdsRow :=
  ⟨["v"], [⟨none, some (some (k : Int)), none, none⟩]⟩

/-- The 25-row table as SQL Server rows. -/
def tdsTable25 : List TdsRow := (List.range 25).map sampleTdsRow

/-- Registry with one registered SQL Server session. -/
def regWss : Registry := [("s2", ⟨Engine.sqlserver, "s2", false⟩)]

/-- Witness for C4: paging the 25-row table with page=2, page_size=10
returns exactly the decoded rows 10-19 (0-based) with total 25, on MySQL
and on SQL Server. -/
theorem table_page_window_witness :
    db_get_table_data "s1" "d" "t" (some 2) (some 10) regW
      ⟨[], .ok (table25.length : Int),
        ⟨.ok (sqlWindow table25 10 10), .ok 0, ⟨.ok (), .ok (), .ok []⟩⟩,
        oracleW⟩ =
      ⟨[], sqlWindow (table25.map (decodeRowWith 1)) 10 10,
        (table25.length : Int), 2, 10⟩ ∧
    db_get_table_data "s2" "d" "t" (some 2) (some 10) regWss
      ⟨[], .ok 0,
        ⟨.ok [], .ok 0, ⟨.ok (), .ok (), .ok [sqlWindow tdsTable25 10 10]⟩⟩,
        ⟨.ok [], .ok 0, ⟨.ok (), .ok (),
          .ok [[⟨["c"],
            [⟨none, some (some (tdsTable25.length : Int)), none, none⟩]⟩]]⟩⟩⟩ =
      ⟨[], sqlWindow (tdsTable25.map decodeTdsRow) 10 10,
        (tdsTable25.length : Int), 2, 10⟩ ∧
    sqlWindow (table25.map (decodeRowWith 1)) 10 10 =
      (((List.range 25).map (fun k => [JValue.int (k : Int)])).drop 10).take 10 ∧
    sqlWindow (tdsTable25.map decodeTdsRow) 10 10 =
      (((List.range 25).map (fun k => [JValue.int (k : Int)])).drop 10).take 10 ∧
    (table25.length : Int) = 25 ∧ (tdsTable25.length : Int) = 25 := by
  refine ⟨?_, ?_, by decide, by decide, by decide, by decide⟩
  · exact table_page_window.1 "s1" "d" "t" regW ⟨Engine.mysql, "s1", false⟩ ["v"]
      table25 (some 2) (some 10) [] oracleW rfl rfl (by decide) (by decide)
      (by decide)
  · exact table_page_window.2.2.2.1 "s2" "d" "t" "c" regWss
      ⟨Engine.sqlserver, "s2", false⟩ tdsTable25 (some 2) (some 10) [] rfl rfl
      (by decide) (by decide)

end EasySql
